import Mathlib

/-!
Verification of hyper's HTTP/1.1-to-HTTP/2 connection facade
(`hyper/common/connection.py`, class `HTTPConnection`).

The facade is embedded shallowly: Python dictionaries become association
lists with Python `dict.update` semantics, the two transport classes
(external collaborators) become an abstract `Conn` record tagged by kind,
and the transport's `request` behaviour becomes an oracle function that
either returns normally, raises the `TLSUpgrade` negotiation signal, or
raises some other error.  `HTTPConnection.request` is translated from the
source line by line, also returning the list of observable side effects
(transport constructions, socket installs, preamble sends, forwarded
requests) so that ordering and frame properties can be stated.
-/

namespace Hyper

/-- A Python value, as far as the constructor options need: booleans,
strings, the `None` object, and an opaque window-manager object named by a
string. -/
inductive Value
  | bool (b : Bool)
  | str (s : String)
  | nat (n : Nat)
  | none
  | windowManager (w : String)
  deriving DecidableEq, Repr

/-- A Python dict of keyword options: an association list in which each
key occurs at most once (dict insertion order, no duplicate keys). -/
abbrev Kwargs := List (String × Value)

/-- `d[k]` lookup: first (and, for a well-formed dict, only) binding. -/
def dictGet (d : Kwargs) (k : String) : Option Value :=
  match d with
  | [] => Option.none
  | (k', v) :: rest => if k' = k then some v else dictGet rest k

/-- `d[k] = v`: overwrite the binding for `k` in place, or append it. -/
def dictSet (d : Kwargs) (k : String) (v : Value) : Kwargs :=
  match d with
  | [] => [(k, v)]
  | (k', v') :: rest =>
    if k' = k then (k', v) :: rest else (k', v') :: dictSet rest k v

/-- `d.update(u)`: Python dict update, folding `dictSet` over `u`'s items
in order (a key present in both takes `u`'s value). -/
def dictUpdate (d : Kwargs) (u : Kwargs) : Kwargs :=
  match u with
  | [] => d
  | (k, v) :: rest => dictUpdate (dictSet d k v) rest

/-- Which transport class a connection object belongs to:
`HTTP11Connection` (older protocol) or `HTTP20Connection` (newer
protocol). -/
inductive ConnKind
  | h11
  | h20
  deriving DecidableEq, Repr

/-- An abstract transport connection object.  `host`, `port` and `kwargs`
are the constructor arguments it was built from, `sock` is its socket
slot (`Option.none` while no socket has been installed), and `id` is an
object identity so that distinct constructions can be told apart. -/
structure Conn where
  kind : ConnKind
  host : String
  port : Option Nat
  kwargs : Kwargs
  sock : Option Nat
  id : Nat
  deriving DecidableEq, Repr

/-- Modelled from the spec: the external older-protocol transport
constructor `HTTP11Connection(host, port, **kwargs)`
(`hyper/http11/connection.py`, not under `src/`).  It records its
arguments; no socket exists yet (connecting is not part of
construction). -/
def HTTP11Connection (host : String) (port : Option Nat) (kwargs : Kwargs)
    (id : Nat) : Conn :=
  { kind := ConnKind.h11, host := host, port := port, kwargs := kwargs,
    sock := Option.none, id := id }

/-- Modelled from the spec: the external newer-protocol transport
constructor `HTTP20Connection(host, port, **kwargs)`
(`hyper/http20/connection.py`, not under `src/`).  Per the spec this
construction performs no network connect of its own: its socket slot is
unset until one is installed. -/
def HTTP20Connection (host : String) (port : Option Nat) (kwargs : Kwargs)
    (id : Nat) : Conn :=
  { kind := ConnKind.h20, host := host, port := port, kwargs := kwargs,
    sock := Option.none, id := id }

/-- The arguments of one `request(method, url, body, headers)` call. -/
structure Request where
  method : String
  url : String
  body : Option String
  headers : List (String × String)
  deriving DecidableEq, Repr

/-- What a transport's own `request` does on one call: return normally
(`none` for HTTP/1.1, a stream id for HTTP/2), raise the `TLSUpgrade`
negotiation signal carrying the negotiated protocol name and the live
socket, or raise some other error. -/
inductive TransportOutcome
  | ok (r : Option Nat)
  | tlsUpgrade (negotiated : String) (sock : Nat)
  | err (e : String)
  deriving DecidableEq, Repr

/-- Behaviour oracle for the external transports: what
`conn.request(method, url, body, headers)` does, as a function of the
connection object and the request. -/
abbrev Behavior := Conn → Request → TransportOutcome

/-- The facade `HTTPConnection`'s fields, exactly as `__init__` stores
them: the raw `host` and `port` arguments, the two partitioned keyword
mappings, and the active transport slot `_conn`. -/
structure HTTPConnection where
  host_ : String
  port_ : Option Nat
  h1_kwargs : Kwargs
  h2_kwargs : Kwargs
  conn_ : Conn
  deriving DecidableEq, Repr

/-- An observable side effect of the facade's code: a transport
construction (with the exact constructor arguments), a socket install, a
preamble send, or a forwarded `request` call (with the exact arguments)
on the transport with the given object id. -/
inductive Event
  | constructed (kind : ConnKind) (host : String) (port : Option Nat)
      (kwargs : Kwargs) (id : Nat)
  | sockInstalled (id : Nat) (sock : Nat)
  | preambleSent (id : Nat)
  | transportRequest (id : Nat) (req : Request)
  deriving DecidableEq, Repr

/-- `HTTPConnection.__init__(host, port, secure, window_manager,
enable_push, **kwargs)`, translated from
`hyper/common/connection.py`:

  - store `host` and `port` as given;
  - `_h1_kwargs = {secure: secure}`, `_h2_kwargs = {window_manager:
    window_manager, enable_push: enable_push}`;
  - add every unexpected kwarg to both dictionaries (`dict.update`);
  - eagerly construct the HTTP/1.1 transport from the stored host, port
    and `_h1_kwargs` and make it the active transport.

Returns the facade together with the construction events (the fresh
transport gets object id 0). -/
def HTTPConnection.init (host : String) (port : Option Nat) (secure : Value)
    (window_manager : Value) (enable_push : Value) (kwargs : Kwargs) :
    HTTPConnection × List Event :=
  let h1 := dictUpdate [("secure", secure)] kwargs
  let h2 := dictUpdate
    [("window_manager", window_manager), ("enable_push", enable_push)] kwargs
  let conn := HTTP11Connection host port h1 0
  ({ host_ := host, port_ := port, h1_kwargs := h1, h2_kwargs := h2,
     conn_ := conn },
   [Event.constructed ConnKind.h11 host port h1 0])

/-- The newer-protocol transport as the upgrade handler builds it:
`HTTP20Connection(self._host, self._port, **self._h2_kwargs)` followed by
`self._conn._sock = e.sock`. -/
def upgradedConn (c : HTTPConnection) (sock : Nat) (freshId : Nat) : Conn :=
  { HTTP20Connection c.host_ c.port_ c.h2_kwargs freshId with
    sock := some sock }

/-- What the facade's `request` call does from the caller's point of
view: return a value, fail the `assert` on a bad negotiated protocol,
propagate a transport error, or let a `TLSUpgrade` raised by the replay
itself escape uncaught (an exception raised inside an `except` block is
not caught by the same `try`). -/
inductive RequestResult
  | ok (r : Option Nat)
  | assertionError
  | transportError (e : String)
  | uncaughtUpgrade (negotiated : String) (sock : Nat)
  deriving DecidableEq, Repr

/-- How the result of the replayed request reaches the caller: a normal
return is returned, any error the replay raises propagates unmodified —
including a `TLSUpgrade`, which is raised inside the `except` block and
therefore not caught by the same `try`. -/
def replayResult : TransportOutcome → RequestResult
  | TransportOutcome.ok r => RequestResult.ok r
  | TransportOutcome.err e => RequestResult.transportError e
  | TransportOutcome.tlsUpgrade n s => RequestResult.uncaughtUpgrade n s

/-- The side effects of the upgrade handler, in source order: the
original forward that raised the signal, the `HTTP20Connection`
construction from the stored host, port and newer-protocol mapping, the
install of the signal's socket, the preamble send, and the replay of the
original request on the new transport. -/
def upgradeEvents (c : HTTPConnection) (req : Request) (sock : Nat)
    (freshId : Nat) : List Event :=
  [Event.transportRequest c.conn_.id req,
   Event.constructed ConnKind.h20 c.host_ c.port_ c.h2_kwargs freshId,
   Event.sockInstalled freshId sock,
   Event.preambleSent freshId,
   Event.transportRequest freshId req]

/-- `HTTPConnection.request(method, url, body, headers)`, translated from
`hyper/common/connection.py`:

  - forward the call unchanged to `self._conn.request`;
  - on a normal return or a non-`TLSUpgrade` error, the facade adds
    nothing;
  - on `TLSUpgrade e`: `assert e.negotiated in H2_NPN_PROTOCOLS`
    (abort with an assertion failure otherwise), then construct
    `HTTP20Connection(self._host, self._port, **self._h2_kwargs)`,
    install `e.sock` as its socket, make it the active transport, send
    the HTTP/2 preamble on it, and replay the original request on it,
    returning that result.

`allowed` stands for the imported `H2_NPN_PROTOCOLS` list
(`hyper/tls.py`, not under `src/`), kept abstract as a parameter;
`freshId` is the object id a newly constructed transport would get;
`beh` is the external transports' behaviour.  Returns the facade after
the call, the call's result, and the emitted events in order. -/
def HTTPConnection.request (allowed : List String) (beh : Behavior)
    (freshId : Nat) (c : HTTPConnection) (req : Request) :
    HTTPConnection × RequestResult × List Event :=
  match beh c.conn_ req with
  | TransportOutcome.ok r =>
    (c, RequestResult.ok r, [Event.transportRequest c.conn_.id req])
  | TransportOutcome.err e =>
    (c, RequestResult.transportError e,
     [Event.transportRequest c.conn_.id req])
  | TransportOutcome.tlsUpgrade neg sock =>
    if neg ∈ allowed then
      ({ c with conn_ := upgradedConn c sock freshId },
       replayResult (beh (upgradedConn c sock freshId) req),
       upgradeEvents c req sock freshId)
    else
      (c, RequestResult.assertionError,
       [Event.transportRequest c.conn_.id req])

/-! ## Dictionary lemmas -/

theorem dictGet_dictSet_self (d : Kwargs) (k : String) (v : Value) :
    dictGet (dictSet d k v) k = some v := by
  induction d with
  | nil => simp [dictSet, dictGet]
  | cons p rest ih =>
    obtain ⟨k', v'⟩ := p
    by_cases h : k' = k
    · simp [dictSet, dictGet, h]
    · simp [dictSet, dictGet, h, ih]

theorem dictGet_dictSet_ne (d : Kwargs) (ks k : String) (v : Value)
    (h : ks ≠ k) : dictGet (dictSet d ks v) k = dictGet d k := by
  induction d with
  | nil => simp [dictSet, dictGet, h]
  | cons p rest ih =>
    obtain ⟨k', v'⟩ := p
    by_cases h2 : k' = ks
    · subst h2
      simp [dictSet, dictGet, h]
    · simp [dictSet, dictGet, h2, ih]

theorem dictGet_dictUpdate_not_mem (d u : Kwargs) (k : String)
    (h : k ∉ u.map Prod.fst) : dictGet (dictUpdate d u) k = dictGet d k := by
  induction u generalizing d with
  | nil => simp [dictUpdate]
  | cons p rest ih =>
    obtain ⟨k', v'⟩ := p
    simp only [List.map_cons, List.mem_cons] at h
    push_neg at h
    rw [dictUpdate, ih _ h.2, dictGet_dictSet_ne _ _ _ _ (Ne.symm h.1)]

theorem dictGet_dictUpdate_mem (d u : Kwargs) (k : String) (v : Value)
    (hnd : (u.map Prod.fst).Nodup) (h : (k, v) ∈ u) :
    dictGet (dictUpdate d u) k = some v := by
  induction u generalizing d with
  | nil => cases h
  | cons p rest ih =>
    obtain ⟨k', v'⟩ := p
    simp only [List.map_cons, List.nodup_cons] at hnd
    rw [dictUpdate]
    rcases List.mem_cons.mp h with heq | hmem
    · injection heq with hk hv
      subst hk
      subst hv
      rw [dictGet_dictUpdate_not_mem _ _ _ hnd.1, dictGet_dictSet_self]
    · exact ih _ hnd.2 hmem

/-! ## Construction-time claims -/

/-- Claim C8: construction eagerly builds exactly one transport, of the
older-protocol kind, from the host, the port and the older-protocol
mapping; no newer-protocol transport is constructed at construction
time, and the active transport slot holds exactly that one transport. -/
theorem init_constructs_only_h11 (host : String) (port : Option Nat)
    (secure window_manager enable_push : Value) (kwargs : Kwargs) :
    let r := HTTPConnection.init host port secure window_manager
      enable_push kwargs
    r.2 = [Event.constructed ConnKind.h11 host port r.1.h1_kwargs 0] ∧
    r.1.conn_ = HTTP11Connection host port r.1.h1_kwargs 0 ∧
    r.1.conn_.kind = ConnKind.h11 ∧
    (∀ h p kw i, Event.constructed ConnKind.h20 h p kw i ∉ r.2) := by
  refine ⟨rfl, rfl, rfl, ?_⟩
  intro h p kw i hmem
  simp only [HTTPConnection.init, List.mem_singleton,
    Event.constructed.injEq] at hmem
  exact ConnKind.noConfusion hmem.1

/-- Claim C2, counterexample: constructing the facade with host
"example.com:8080" and port 9 does not split the embedded port out of
the host and the embedded port does not take precedence — the facade
stores both arguments verbatim, so its host is still "example.com:8080"
and its port is 9, not 8080. -/
theorem port_split_counterexample :
    ¬ ((HTTPConnection.init "example.com:8080" (some 9) Value.none
          Value.none (Value.bool false) []).1.host_ = "example.com" ∧
       (HTTPConnection.init "example.com:8080" (some 9) Value.none
          Value.none (Value.bool false) []).1.port_ = some 8080) := by
  decide

/-- Claim C2 (amended): construction stores the host and port arguments
verbatim — the facade itself performs no splitting of a port embedded in
the host, gives no precedence to it, and the active transport is
constructed from exactly the stored values; any host:port resolution is
delegated to the transport constructors. -/
theorem init_stores_host_port_verbatim (host : String) (port : Option Nat)
    (secure window_manager enable_push : Value) (kwargs : Kwargs) :
    let f := (HTTPConnection.init host port secure window_manager
      enable_push kwargs).1
    f.host_ = host ∧ f.port_ = port ∧
    f.conn_.host = host ∧ f.conn_.port = port :=
  ⟨rfl, rfl, rfl, rfl⟩

/-- Claim C3: construction partitions the options — the
transport-security flag goes only into the older-protocol mapping, the
window-manager and push-permission flags go only into the newer-protocol
mapping, and every extra keyword option is copied into both mappings; in
particular, for options secure = true, window_manager = W,
enable_push = true, extra_key = "v", the older-protocol mapping is
exactly the dict with secure = true and extra_key = "v" and the
newer-protocol mapping exactly the dict with window_manager = W,
enable_push = true and extra_key = "v".  (The hypotheses record what the
Python calling convention guarantees about the kwargs bag: it is a dict,
so its keys are distinct, and it can never contain the named parameters
secure, window_manager or enable_push.) -/
theorem init_partitions_config (host : String) (port : Option Nat)
    (secure window_manager enable_push : Value) (kwargs : Kwargs)
    (hnd : (kwargs.map Prod.fst).Nodup)
    (hs : "secure" ∉ kwargs.map Prod.fst)
    (hw : "window_manager" ∉ kwargs.map Prod.fst)
    (hp : "enable_push" ∉ kwargs.map Prod.fst) :
    (let f := (HTTPConnection.init host port secure window_manager
        enable_push kwargs).1
     dictGet f.h1_kwargs "secure" = some secure ∧
     dictGet f.h1_kwargs "window_manager" = Option.none ∧
     dictGet f.h1_kwargs "enable_push" = Option.none ∧
     dictGet f.h2_kwargs "window_manager" = some window_manager ∧
     dictGet f.h2_kwargs "enable_push" = some enable_push ∧
     dictGet f.h2_kwargs "secure" = Option.none ∧
     (∀ k v, (k, v) ∈ kwargs → dictGet f.h1_kwargs k = some v ∧
        dictGet f.h2_kwargs k = some v)) ∧
    (HTTPConnection.init "example.com" Option.none (Value.bool true)
        (Value.windowManager "W") (Value.bool true)
        [("extra_key", Value.str "v")]).1.h1_kwargs =
      [("secure", Value.bool true), ("extra_key", Value.str "v")] ∧
    (HTTPConnection.init "example.com" Option.none (Value.bool true)
        (Value.windowManager "W") (Value.bool true)
        [("extra_key", Value.str "v")]).1.h2_kwargs =
      [("window_manager", Value.windowManager "W"),
       ("enable_push", Value.bool true), ("extra_key", Value.str "v")] := by
  refine ⟨⟨?_, ?_, ?_, ?_, ?_, ?_, ?_⟩, by decide, by decide⟩
  · rw [show (HTTPConnection.init host port secure window_manager
        enable_push kwargs).1.h1_kwargs =
        dictUpdate [("secure", secure)] kwargs from rfl,
      dictGet_dictUpdate_not_mem _ _ _ hs]
    simp [dictGet]
  · rw [show (HTTPConnection.init host port secure window_manager
        enable_push kwargs).1.h1_kwargs =
        dictUpdate [("secure", secure)] kwargs from rfl,
      dictGet_dictUpdate_not_mem _ _ _ hw]
    simp [dictGet]
  · rw [show (HTTPConnection.init host port secure window_manager
        enable_push kwargs).1.h1_kwargs =
        dictUpdate [("secure", secure)] kwargs from rfl,
      dictGet_dictUpdate_not_mem _ _ _ hp]
    simp [dictGet]
  · rw [show (HTTPConnection.init host port secure window_manager
        enable_push kwargs).1.h2_kwargs =
        dictUpdate [("window_manager", window_manager),
          ("enable_push", enable_push)] kwargs from rfl,
      dictGet_dictUpdate_not_mem _ _ _ hw]
    simp [dictGet]
  · rw [show (HTTPConnection.init host port secure window_manager
        enable_push kwargs).1.h2_kwargs =
        dictUpdate [("window_manager", window_manager),
          ("enable_push", enable_push)] kwargs from rfl,
      dictGet_dictUpdate_not_mem _ _ _ hp]
    simp [dictGet]
  · rw [show (HTTPConnection.init host port secure window_manager
        enable_push kwargs).1.h2_kwargs =
        dictUpdate [("window_manager", window_manager),
          ("enable_push", enable_push)] kwargs from rfl,
      dictGet_dictUpdate_not_mem _ _ _ hs]
    simp [dictGet]
  · intro k v hkv
    exact ⟨dictGet_dictUpdate_mem _ _ _ _ hnd hkv,
      dictGet_dictUpdate_mem _ _ _ _ hnd hkv⟩

/-- Witness for the configuration-partition claim at the spec's concrete
example input. -/
theorem init_partitions_config_witness :
    (((([("extra_key", Value.str "v")] : Kwargs).map Prod.fst).Nodup ∧
      "secure" ∉ ([("extra_key", Value.str "v")] : Kwargs).map Prod.fst ∧
      "window_manager" ∉
        ([("extra_key", Value.str "v")] : Kwargs).map Prod.fst ∧
      "enable_push" ∉
        ([("extra_key", Value.str "v")] : Kwargs).map Prod.fst)) ∧
    ((let f := (HTTPConnection.init "example.com" Option.none
         (Value.bool true) (Value.windowManager "W") (Value.bool true)
         [("extra_key", Value.str "v")]).1
      dictGet f.h1_kwargs "secure" = some (Value.bool true) ∧
      dictGet f.h1_kwargs "window_manager" = Option.none ∧
      dictGet f.h1_kwargs "enable_push" = Option.none ∧
      dictGet f.h2_kwargs "window_manager" =
        some (Value.windowManager "W") ∧
      dictGet f.h2_kwargs "enable_push" = some (Value.bool true) ∧
      dictGet f.h2_kwargs "secure" = Option.none ∧
      (∀ k v, (k, v) ∈ ([("extra_key", Value.str "v")] : Kwargs) →
         dictGet f.h1_kwargs k = some v ∧ dictGet f.h2_kwargs k = some v)) ∧
     (HTTPConnection.init "example.com" Option.none (Value.bool true)
         (Value.windowManager "W") (Value.bool true)
         [("extra_key", Value.str "v")]).1.h1_kwargs =
       [("secure", Value.bool true), ("extra_key", Value.str "v")] ∧
     (HTTPConnection.init "example.com" Option.none (Value.bool true)
         (Value.windowManager "W") (Value.bool true)
         [("extra_key", Value.str "v")]).1.h2_kwargs =
       [("window_manager", Value.windowManager "W"),
        ("enable_push", Value.bool true), ("extra_key", Value.str "v")]) :=
  ⟨by decide,
   init_partitions_config "example.com" Option.none (Value.bool true)
     (Value.windowManager "W") (Value.bool true)
     [("extra_key", Value.str "v")] (by decide) (by decide) (by decide)
     (by decide)⟩

/-! ## Dispatch lemmas for `request` -/

theorem request_eq_of_ok (allowed : List String) (beh : Behavior)
    (freshId : Nat) (c : HTTPConnection) (req : Request) (r : Option Nat)
    (h : beh c.conn_ req = TransportOutcome.ok r) :
    HTTPConnection.request allowed beh freshId c req =
      (c, RequestResult.ok r, [Event.transportRequest c.conn_.id req]) := by
  unfold HTTPConnection.request
  rw [h]

theorem request_eq_of_err (allowed : List String) (beh : Behavior)
    (freshId : Nat) (c : HTTPConnection) (req : Request) (e : String)
    (h : beh c.conn_ req = TransportOutcome.err e) :
    HTTPConnection.request allowed beh freshId c req =
      (c, RequestResult.transportError e,
       [Event.transportRequest c.conn_.id req]) := by
  unfold HTTPConnection.request
  rw [h]

theorem request_eq_of_upgrade (allowed : List String) (beh : Behavior)
    (freshId : Nat) (c : HTTPConnection) (req : Request) (neg : String)
    (sock : Nat) (h : beh c.conn_ req = TransportOutcome.tlsUpgrade neg sock)
    (hm : neg ∈ allowed) :
    HTTPConnection.request allowed beh freshId c req =
      ({ c with conn_ := upgradedConn c sock freshId },
       replayResult (beh (upgradedConn c sock freshId) req),
       upgradeEvents c req sock freshId) := by
  unfold HTTPConnection.request
  rw [h]
  show (if neg ∈ allowed then
      ({ c with conn_ := upgradedConn c sock freshId },
       replayResult (beh (upgradedConn c sock freshId) req),
       upgradeEvents c req sock freshId)
    else (c, RequestResult.assertionError,
      [Event.transportRequest c.conn_.id req])) = _
  rw [if_pos hm]

/-! ## Example fixtures: a concrete request, facade, and transport
behaviours used to witness the universally quantified theorems. -/

/-- The spec's example request. -/
def exReq : Request :=
  { method := "GET", url := "/a", body := Option.none,
    headers := [("X", "1")] }

/-- A freshly constructed facade (active transport: HTTP/1.1, id 0). -/
def exFacade : HTTPConnection :=
  (HTTPConnection.init "example.com" Option.none Value.none Value.none
    (Value.bool false) []).1

/-- Transports that never raise: HTTP/1.1 returns the none sentinel,
HTTP/2 returns stream id 1. -/
def behNormal : Behavior := fun conn _ =>
  match conn.kind with
  | ConnKind.h11 => TransportOutcome.ok Option.none
  | ConnKind.h20 => TransportOutcome.ok (some 1)

/-- The usual upgrade scenario: the HTTP/1.1 transport raises the
negotiation signal (protocol "h2", socket 40); the HTTP/2 transport then
serves requests normally with stream id 1. -/
def behUpgradeOnce : Behavior := fun conn _ =>
  match conn.kind with
  | ConnKind.h11 => TransportOutcome.tlsUpgrade "h2" 40
  | ConnKind.h20 => TransportOutcome.ok (some 1)

/-- A transport raising the negotiation signal with a protocol name
outside the allowed set. -/
def behBadUpgrade : Behavior := fun _ _ =>
  TransportOutcome.tlsUpgrade "spdy/3" 41

/-- Every transport — the HTTP/2 one included — raises the negotiation
signal, carrying a socket derived from its own object id. -/
def behAlwaysUpgrade : Behavior := fun conn _ =>
  TransportOutcome.tlsUpgrade "h2" (conn.id + 40)

/-- A facade that has gone through one handled upgrade (active
transport: HTTP/2, id 1, socket 40). -/
def exFacadeUpgraded : HTTPConnection :=
  (HTTPConnection.request ["h2"] behUpgradeOnce 1 exFacade exReq).1

/-- The external transports' return-value contract (spec section 6): an
HTTP/1.1 transport's `request` returns the none sentinel, an HTTP/2
transport's `request` returns a stream identifier. -/
def WellTypedBehavior (beh : Behavior) : Prop :=
  ∀ conn rq r, beh conn rq = TransportOutcome.ok r →
    (conn.kind = ConnKind.h11 → r = Option.none) ∧
    (conn.kind = ConnKind.h20 → ∃ n, r = some n)

theorem behNormal_wellTyped : WellTypedBehavior behNormal := by
  intro conn rq r h
  simp only [behNormal] at h
  cases hk : conn.kind <;> rw [hk] at h <;> injection h with h <;> subst h <;>
    simp [hk]

/-! ## Request-dispatch claims -/

/-- Claim C9: when the active transport raises no negotiation signal,
the facade forwards the request unchanged, returns exactly the
transport's result (the none sentinel for an HTTP/1.1 transport, a
stream identifier for an HTTP/2 one, per the transports' own contract),
leaves its state untouched, and propagates any other transport error
unchanged. -/
theorem request_no_signal_forwards (allowed : List String) (beh : Behavior)
    (freshId : Nat) (c : HTTPConnection) (req : Request)
    (hwt : WellTypedBehavior beh) :
    (∀ r, beh c.conn_ req = TransportOutcome.ok r →
       HTTPConnection.request allowed beh freshId c req =
         (c, RequestResult.ok r, [Event.transportRequest c.conn_.id req]) ∧
       (c.conn_.kind = ConnKind.h11 → r = Option.none) ∧
       (c.conn_.kind = ConnKind.h20 → ∃ n, r = some n)) ∧
    (∀ e, beh c.conn_ req = TransportOutcome.err e →
       HTTPConnection.request allowed beh freshId c req =
         (c, RequestResult.transportError e,
          [Event.transportRequest c.conn_.id req])) := by
  constructor
  · intro r h
    exact ⟨request_eq_of_ok allowed beh freshId c req r h,
      (hwt c.conn_ req r h).1, (hwt c.conn_ req r h).2⟩
  · intro e h
    exact request_eq_of_err allowed beh freshId c req e h

/-- Witness for the no-signal forwarding claim on a fresh facade and the
well-typed quiet behaviour. -/
theorem request_no_signal_forwards_witness :
    WellTypedBehavior behNormal ∧
    (HTTPConnection.request [] behNormal 1 exFacade exReq =
       (exFacade, RequestResult.ok Option.none,
        [Event.transportRequest exFacade.conn_.id exReq]) ∧
     (exFacade.conn_.kind = ConnKind.h11 →
        (Option.none : Option Nat) = Option.none) ∧
     (exFacade.conn_.kind = ConnKind.h20 →
        ∃ n, (Option.none : Option Nat) = some n)) :=
  ⟨behNormal_wellTyped,
   (request_no_signal_forwards [] behNormal 1 exFacade exReq
      behNormal_wellTyped).1 Option.none rfl⟩

/-- Claim C4: a negotiation signal whose protocol name is outside the
allowed set aborts the call with the assertion failure: the facade is
unchanged (no newer-protocol transport is constructed) and the only
emitted event is the original forward — no socket install, no preamble,
no replay. -/
theorem bad_negotiated_protocol_aborts (allowed : List String)
    (beh : Behavior) (freshId : Nat) (c : HTTPConnection) (req : Request)
    (neg : String) (sock : Nat)
    (hb : beh c.conn_ req = TransportOutcome.tlsUpgrade neg sock)
    (hm : neg ∉ allowed) :
    HTTPConnection.request allowed beh freshId c req =
      (c, RequestResult.assertionError,
       [Event.transportRequest c.conn_.id req]) := by
  unfold HTTPConnection.request
  rw [hb]
  show (if neg ∈ allowed then
      ({ c with conn_ := upgradedConn c sock freshId },
       replayResult (beh (upgradedConn c sock freshId) req),
       upgradeEvents c req sock freshId)
    else (c, RequestResult.assertionError,
      [Event.transportRequest c.conn_.id req])) = _
  rw [if_neg hm]

/-- Witness for the fatal-contract claim: negotiated protocol "spdy/3"
against allowed set ["h2"]. -/
theorem bad_negotiated_protocol_aborts_witness :
    behBadUpgrade exFacade.conn_ exReq =
      TransportOutcome.tlsUpgrade "spdy/3" 41 ∧
    "spdy/3" ∉ ["h2"] ∧
    HTTPConnection.request ["h2"] behBadUpgrade 1 exFacade exReq =
      (exFacade, RequestResult.assertionError,
       [Event.transportRequest exFacade.conn_.id exReq]) :=
  ⟨rfl, by decide,
   bad_negotiated_protocol_aborts ["h2"] behBadUpgrade 1 exFacade exReq
     "spdy/3" 41 rfl (by decide)⟩

/-- Claim C5: when the negotiation signal is handled, the preamble is
sent on the newly constructed transport strictly before the replayed
request is issued on it (positions 3 and 4 of the emitted event
trace). -/
theorem preamble_before_replay (allowed : List String) (beh : Behavior)
    (freshId : Nat) (c : HTTPConnection) (req : Request) (neg : String)
    (sock : Nat)
    (hb : beh c.conn_ req = TransportOutcome.tlsUpgrade neg sock)
    (hm : neg ∈ allowed) :
    ∃ i j : Nat, i < j ∧
      ((HTTPConnection.request allowed beh freshId c req).2.2)[i]? =
        some (Event.preambleSent freshId) ∧
      ((HTTPConnection.request allowed beh freshId c req).2.2)[j]? =
        some (Event.transportRequest freshId req) := by
  rw [request_eq_of_upgrade allowed beh freshId c req neg sock hb hm]
  exact ⟨3, 4, by omega, rfl, rfl⟩

/-- Witness for the preamble-before-replay ordering in the concrete
upgrade scenario. -/
theorem preamble_before_replay_witness :
    behUpgradeOnce exFacade.conn_ exReq =
      TransportOutcome.tlsUpgrade "h2" 40 ∧
    "h2" ∈ ["h2"] ∧
    (∃ i j : Nat, i < j ∧
      ((HTTPConnection.request ["h2"] behUpgradeOnce 1 exFacade
          exReq).2.2)[i]? = some (Event.preambleSent 1) ∧
      ((HTTPConnection.request ["h2"] behUpgradeOnce 1 exFacade
          exReq).2.2)[j]? = some (Event.transportRequest 1 exReq)) :=
  ⟨rfl, by decide,
   preamble_before_replay ["h2"] behUpgradeOnce 1 exFacade exReq "h2" 40
     rfl (by decide)⟩

/-- The forwarded `request` calls a trace contains for the transport
with object id `id`. -/
def requestEventsOn (tr : List Event) (id : Nat) : List Event :=
  tr.filter fun e =>
    match e with
    | Event.transportRequest i _ => i == id
    | _ => false

/-- Claim C6: when the negotiation signal is handled, the new
transport's `request` is invoked exactly once, with exactly the caller's
original method, url, body and headers, and its result is returned to
the caller.  (`hid` records that the fresh transport's object identity
differs from the old transport's.) -/
theorem replay_fidelity (allowed : List String) (beh : Behavior)
    (freshId : Nat) (c : HTTPConnection) (req : Request) (neg : String)
    (sock : Nat) (r : Option Nat)
    (hb : beh c.conn_ req = TransportOutcome.tlsUpgrade neg sock)
    (hm : neg ∈ allowed)
    (hr : beh (upgradedConn c sock freshId) req = TransportOutcome.ok r)
    (hid : c.conn_.id ≠ freshId) :
    (HTTPConnection.request allowed beh freshId c req).2.1 =
      RequestResult.ok r ∧
    requestEventsOn
      ((HTTPConnection.request allowed beh freshId c req).2.2) freshId =
      [Event.transportRequest freshId req] := by
  rw [request_eq_of_upgrade allowed beh freshId c req neg sock hb hm]
  constructor
  · rw [hr]
    rfl
  · simp [requestEventsOn, upgradeEvents, List.filter_cons, hid]

/-- Witness for replay fidelity in the concrete upgrade scenario, with
the spec's example request. -/
theorem replay_fidelity_witness :
    behUpgradeOnce exFacade.conn_ exReq =
      TransportOutcome.tlsUpgrade "h2" 40 ∧
    "h2" ∈ ["h2"] ∧
    behUpgradeOnce (upgradedConn exFacade 40 1) exReq =
      TransportOutcome.ok (some 1) ∧
    exFacade.conn_.id ≠ 1 ∧
    ((HTTPConnection.request ["h2"] behUpgradeOnce 1 exFacade exReq).2.1 =
       RequestResult.ok (some 1) ∧
     requestEventsOn
       ((HTTPConnection.request ["h2"] behUpgradeOnce 1 exFacade
          exReq).2.2) 1 = [Event.transportRequest 1 exReq]) :=
  ⟨rfl, by decide, rfl, by decide,
   replay_fidelity ["h2"] behUpgradeOnce 1 exFacade exReq "h2" 40 (some 1)
     rfl (by decide) rfl (by decide)⟩

/-- Claim C7: when the negotiation signal is handled, the socket of the
new active transport is exactly the socket the signal carried, the
newer-protocol constructor itself sets up no socket (no connect of its
own), and the new active transport is precisely the constructed
transport with the carried socket installed. -/
theorem upgrade_reuses_socket (allowed : List String) (beh : Behavior)
    (freshId : Nat) (c : HTTPConnection) (req : Request) (neg : String)
    (sock : Nat)
    (hb : beh c.conn_ req = TransportOutcome.tlsUpgrade neg sock)
    (hm : neg ∈ allowed) :
    ((HTTPConnection.request allowed beh freshId c req).1).conn_.sock =
      some sock ∧
    (HTTP20Connection c.host_ c.port_ c.h2_kwargs freshId).sock =
      Option.none ∧
    ((HTTPConnection.request allowed beh freshId c req).1).conn_ =
      { HTTP20Connection c.host_ c.port_ c.h2_kwargs freshId with
        sock := some sock } := by
  rw [request_eq_of_upgrade allowed beh freshId c req neg sock hb hm]
  exact ⟨rfl, rfl, rfl⟩

/-- Witness for socket reuse in the concrete upgrade scenario. -/
theorem upgrade_reuses_socket_witness :
    behUpgradeOnce exFacade.conn_ exReq =
      TransportOutcome.tlsUpgrade "h2" 40 ∧
    "h2" ∈ ["h2"] ∧
    (((HTTPConnection.request ["h2"] behUpgradeOnce 1 exFacade
         exReq).1).conn_.sock = some 40 ∧
     (HTTP20Connection exFacade.host_ exFacade.port_ exFacade.h2_kwargs
        1).sock = Option.none ∧
     ((HTTPConnection.request ["h2"] behUpgradeOnce 1 exFacade
         exReq).1).conn_ =
       { HTTP20Connection exFacade.host_ exFacade.port_ exFacade.h2_kwargs
           1 with sock := some 40 }) :=
  ⟨rfl, by decide,
   upgrade_reuses_socket ["h2"] behUpgradeOnce 1 exFacade exReq "h2" 40
     rfl (by decide)⟩

/-- Claim C10: the handled upgrade replaces only the active-transport
slot — the stored host, port and both configuration mappings are
unchanged — and the replacement transport is constructed from exactly
those stored values (host, port and the newer-protocol mapping). -/
theorem upgrade_frame (allowed : List String) (beh : Behavior)
    (freshId : Nat) (c : HTTPConnection) (req : Request) (neg : String)
    (sock : Nat)
    (hb : beh c.conn_ req = TransportOutcome.tlsUpgrade neg sock)
    (hm : neg ∈ allowed) :
    ((HTTPConnection.request allowed beh freshId c req).1).host_ =
      c.host_ ∧
    ((HTTPConnection.request allowed beh freshId c req).1).port_ =
      c.port_ ∧
    ((HTTPConnection.request allowed beh freshId c req).1).h1_kwargs =
      c.h1_kwargs ∧
    ((HTTPConnection.request allowed beh freshId c req).1).h2_kwargs =
      c.h2_kwargs ∧
    ((HTTPConnection.request allowed beh freshId c req).1).conn_.host =
      c.host_ ∧
    ((HTTPConnection.request allowed beh freshId c req).1).conn_.port =
      c.port_ ∧
    ((HTTPConnection.request allowed beh freshId c req).1).conn_.kwargs =
      c.h2_kwargs ∧
    ((HTTPConnection.request allowed beh freshId c req).1).conn_.kind =
      ConnKind.h20 := by
  rw [request_eq_of_upgrade allowed beh freshId c req neg sock hb hm]
  exact ⟨rfl, rfl, rfl, rfl, rfl, rfl, rfl, rfl⟩

/-- Witness for the upgrade frame property in the concrete upgrade
scenario. -/
theorem upgrade_frame_witness :
    behUpgradeOnce exFacade.conn_ exReq =
      TransportOutcome.tlsUpgrade "h2" 40 ∧
    "h2" ∈ ["h2"] ∧
    (((HTTPConnection.request ["h2"] behUpgradeOnce 1 exFacade
         exReq).1).host_ = exFacade.host_ ∧
     ((HTTPConnection.request ["h2"] behUpgradeOnce 1 exFacade
         exReq).1).port_ = exFacade.port_ ∧
     ((HTTPConnection.request ["h2"] behUpgradeOnce 1 exFacade
         exReq).1).h1_kwargs = exFacade.h1_kwargs ∧
     ((HTTPConnection.request ["h2"] behUpgradeOnce 1 exFacade
         exReq).1).h2_kwargs = exFacade.h2_kwargs ∧
     ((HTTPConnection.request ["h2"] behUpgradeOnce 1 exFacade
         exReq).1).conn_.host = exFacade.host_ ∧
     ((HTTPConnection.request ["h2"] behUpgradeOnce 1 exFacade
         exReq).1).conn_.port = exFacade.port_ ∧
     ((HTTPConnection.request ["h2"] behUpgradeOnce 1 exFacade
         exReq).1).conn_.kwargs = exFacade.h2_kwargs ∧
     ((HTTPConnection.request ["h2"] behUpgradeOnce 1 exFacade
         exReq).1).conn_.kind = ConnKind.h20) :=
  ⟨rfl, by decide,
   upgrade_frame ["h2"] behUpgradeOnce 1 exFacade exReq "h2" 40 rfl
     (by decide)⟩

/-! ## The upgrade-idempotence claim -/

/-- Claim C1, counterexample: the handler catches the negotiation signal
whichever kind the active transport is.  Starting from a fresh facade
under a behaviour in which the HTTP/2 transport itself raises the
signal on a later request, the first request swaps the transport to the
HTTP/2 kind, and the next request swaps the transport object again —
the facade stays in the Upgraded state, but a second swap of the
active transport does occur, contradicting the claim. -/
theorem second_swap_counterexample :
    ((HTTPConnection.request ["h2"] behAlwaysUpgrade 1 exFacade
        exReq).1).conn_.kind = ConnKind.h20 ∧
    ((HTTPConnection.request ["h2"] behAlwaysUpgrade 2
        (HTTPConnection.request ["h2"] behAlwaysUpgrade 1 exFacade
          exReq).1 exReq).1).conn_ ≠
      ((HTTPConnection.request ["h2"] behAlwaysUpgrade 1 exFacade
         exReq).1).conn_ := by
  decide

/-- Claim C1 (amended): once the active transport is the newer-protocol
kind, every later `request` call leaves it the newer-protocol kind —
the facade never re-enters the Fresh state and is Upgraded for the rest
of its lifetime.  (Only the kind is stable: if the newer-protocol
transport itself raises the negotiation signal on a later request, the
handler runs again and replaces the transport object with a fresh
newer-protocol transport.) -/
theorem upgraded_stays_upgraded (allowed : List String) (beh : Behavior)
    (freshId : Nat) (c : HTTPConnection) (req : Request)
    (h : c.conn_.kind = ConnKind.h20) :
    ((HTTPConnection.request allowed beh freshId c req).1).conn_.kind =
      ConnKind.h20 := by
  unfold HTTPConnection.request
  cases hb : beh c.conn_ req with
  | ok r => exact h
  | err e => exact h
  | tlsUpgrade neg sock =>
    show ((if neg ∈ allowed then
        ({ c with conn_ := upgradedConn c sock freshId },
         replayResult (beh (upgradedConn c sock freshId) req),
         upgradeEvents c req sock freshId)
      else (c, RequestResult.assertionError,
        [Event.transportRequest c.conn_.id req])).1).conn_.kind =
      ConnKind.h20
    by_cases hm : neg ∈ allowed
    · rw [if_pos hm]
      rfl
    · rw [if_neg hm]
      exact h

/-- Witness: an upgraded facade stays upgraded across a further,
quietly served request. -/
theorem upgraded_stays_upgraded_witness :
    exFacadeUpgraded.conn_.kind = ConnKind.h20 ∧
    ((HTTPConnection.request ["h2"] behNormal 2 exFacadeUpgraded
        exReq).1).conn_.kind = ConnKind.h20 :=
  ⟨rfl,
   upgraded_stays_upgraded ["h2"] behNormal 2 exFacadeUpgraded exReq rfl⟩

end Hyper
